import Mathlib

/-!
Verification development for the SSO web application core: the identity
data model, the admin authorization policy (internal/services/admin.go),
the password/token service (internal/services/auth.go), the OAuth
federation resolvers and the OAuth callback handlers
(internal/handlers/auth.go). Go structs become Lean structures, the GORM
store becomes a list of identity rows, Unix times are naturals, and Go
string-pointer fields are strings with "" standing for nil. Fallible
operations return Except.
-/

namespace SSO

/-- Identity record, from the User struct in internal/models/user.go.
Optional string-pointer fields are modelled as String with "" for nil;
times are Unix seconds. -/
structure User where
  id : Nat
  email : String
  password : String
  firstName : String
  lastName : String
  isActive : Bool
  isVerified : Bool
  isAdmin : Bool
  role : String
  googleID : String
  githubID : String
  avatarURL : String
  bio : String
  website : String
  location : String
  lastLoginAt : Option Nat
  deriving Repr, DecidableEq

/-- Closed error taxonomy covering the sentinel error values of
internal/services/auth.go and admin.go, including the three ad-hoc
self-protection errors built with errors.New in admin.go. -/
inductive ServiceError where
  | invalidCredentials
  | userExists
  | userNotFound
  | invalidToken
  | notAuthorized
  | invalidRole
  | cannotDeactivateSelf
  | cannotDeleteSelf
  | cannotDemoteSelf
  deriving Repr, DecidableEq

/-- Decidable equality for Except results, so that concrete runs of the
fallible operations can be checked by decide. -/
def exceptDecEq {ε α : Type} [DecidableEq ε] [DecidableEq α] :
    DecidableEq (Except ε α) := fun x y =>
  match x, y with
  | .ok a, .ok b =>
    if h : a = b then .isTrue (by rw [h])
    else .isFalse (fun hc => h (Except.ok.inj hc))
  | .error a, .error b =>
    if h : a = b then .isTrue (by rw [h])
    else .isFalse (fun hc => h (Except.error.inj hc))
  | .ok _, .error _ => .isFalse (fun hc => Except.noConfusion hc)
  | .error _, .ok _ => .isFalse (fun hc => Except.noConfusion hc)

instance {ε α : Type} [DecidableEq ε] [DecidableEq α] :
    DecidableEq (Except ε α) :=
  exceptDecEq

/-- The credential store: the live rows of the users table. -/
abbrev Db := List User

/-- UserRepository.GetByID: first row with the given primary key. -/
def getByID (db : Db) (id : Nat) : Option User :=
  db.find? (fun u => u.id == id)

/-- UserRepository.GetByEmail. -/
def getByEmail (db : Db) (email : String) : Option User :=
  db.find? (fun u => u.email == email)

/-- UserRepository.Update (gorm Save on a fetched row): replace the row
with the same primary key. -/
def updateRow (db : Db) (u : User) : Db :=
  db.map (fun v => if v.id == u.id then u else v)

/-- UserRepository.Delete: remove the row from the live set. -/
def deleteRow (db : Db) (id : Nat) : Db :=
  db.filter (fun v => v.id != id)

/-- AdminService.IsAdmin (admin.go line 27): either admin signal grants
baseline privilege. -/
def IsAdmin (user : User) : Bool :=
  user.isAdmin || user.role == "admin"

/-- AdminService.GetAllUsers (admin.go line 41); repository List with
limit and offset. -/
def GetAllUsers (db : Db) (adminUser : User) (limit offset : Nat) :
    Except ServiceError (List User) :=
  if !(IsAdmin adminUser) then .error .notAuthorized
  else .ok ((db.drop offset).take limit)

/-- AdminUpdateUserRequest from internal/models (unnamed part holding the
admin model variant); pointer fields are Options. -/
structure AdminUpdateUserRequest where
  firstName : String
  lastName : String
  email : String
  isActive : Option Bool
  isVerified : Option Bool
  isAdmin : Option Bool
  role : String
  bio : String
  website : String
  location : String
  deriving Repr, DecidableEq

/-- The validRoles set used in AdminService.UpdateUser and
GetUsersByRole. -/
def validRole (r : String) : Bool :=
  r == "user" || r == "admin" || r == "moderator"

/-- AdminService.UpdateUser (admin.go lines 96-155). Field writes happen
on the fetched copy; the store changes only at the final repo Update, so
every error path leaves the store untouched. -/
def UpdateUser (db : Db) (adminUser : User) (userID : Nat)
    (req : AdminUpdateUserRequest) : Except ServiceError (User × Db) :=
  if !(IsAdmin adminUser) then .error .notAuthorized
  else
    match getByID db userID with
    | none => .error .userNotFound
    | some user =>
      if user.isAdmin && adminUser.role != "admin" then .error .notAuthorized
      else
        let user := { user with
          firstName := req.firstName, lastName := req.lastName,
          email := req.email, bio := req.bio, website := req.website,
          location := req.location }
        let user := match req.isActive with
          | some b => { user with isActive := b }
          | none => user
        let user := match req.isVerified with
          | some b => { user with isVerified := b }
          | none => user
        let user := match req.isAdmin with
          | some b =>
            if adminUser.role == "admin" then { user with isAdmin := b } else user
          | none => user
        if req.role != "" then
          if !(validRole req.role) then .error .invalidRole
          else if req.role == "admin" && adminUser.role != "admin" then
            .error .notAuthorized
          else
            let user := { user with role := req.role }
            .ok (user, updateRow db user)
        else
          .ok (user, updateRow db user)

/-- AdminService.DeactivateUser (admin.go lines 158-180). -/
def DeactivateUser (db : Db) (adminUser : User) (userID : Nat) :
    Except ServiceError (User × Db) :=
  if !(IsAdmin adminUser) then .error .notAuthorized
  else
    match getByID db userID with
    | none => .error .userNotFound
    | some user =>
      if user.isAdmin && adminUser.role != "admin" then .error .notAuthorized
      else if user.id == adminUser.id then .error .cannotDeactivateSelf
      else
        let user := { user with isActive := false }
        .ok (user, updateRow db user)

/-- AdminService.ActivateUser (admin.go lines 183-195): no admin-target
guard and no self check appear in the source. -/
def ActivateUser (db : Db) (adminUser : User) (userID : Nat) :
    Except ServiceError (User × Db) :=
  if !(IsAdmin adminUser) then .error .notAuthorized
  else
    match getByID db userID with
    | none => .error .userNotFound
    | some user =>
      let user := { user with isActive := true }
      .ok (user, updateRow db user)

/-- AdminService.DeleteUser (admin.go lines 198-219). -/
def DeleteUser (db : Db) (adminUser : User) (userID : Nat) :
    Except ServiceError Db :=
  if !(IsAdmin adminUser) then .error .notAuthorized
  else
    match getByID db userID with
    | none => .error .userNotFound
    | some user =>
      if user.isAdmin && adminUser.role != "admin" then .error .notAuthorized
      else if user.id == adminUser.id then .error .cannotDeleteSelf
      else .ok (deleteRow db userID)

/-- AdminService.PromoteToAdmin (admin.go lines 222-235): super-admin
gate is strictly role == "admin". -/
def PromoteToAdmin (db : Db) (adminUser : User) (userID : Nat) :
    Except ServiceError (User × Db) :=
  if !(IsAdmin adminUser) || adminUser.role != "admin" then .error .notAuthorized
  else
    match getByID db userID with
    | none => .error .userNotFound
    | some user =>
      let user := { user with isAdmin := true, role := "admin" }
      .ok (user, updateRow db user)

/-- AdminService.DemoteFromAdmin (admin.go lines 238-256). -/
def DemoteFromAdmin (db : Db) (adminUser : User) (userID : Nat) :
    Except ServiceError (User × Db) :=
  if !(IsAdmin adminUser) || adminUser.role != "admin" then .error .notAuthorized
  else
    match getByID db userID with
    | none => .error .userNotFound
    | some user =>
      if user.id == adminUser.id then .error .cannotDemoteSelf
      else
        let user := { user with isAdmin := false, role := "user" }
        .ok (user, updateRow db user)

/-- bcrypt.GenerateFromPassword modelled as an injective tagging of the
plaintext; the adaptive hash itself is external crypto, and only the
verification round-trip contract is observable to this core. -/
def hashPassword (pw : String) : String :=
  "bcrypt$" ++ pw

/-- bcrypt.CompareHashAndPassword: succeeds exactly when the digest was
produced from the same plaintext. -/
def checkPassword (digest pw : String) : Bool :=
  digest == hashPassword pw

/-- JWT signing algorithms relevant to the token service: the HMAC
family accepted by the keyfunc in ValidateJWT, plus representatives of
the rejected families ("none" and RSA). -/
inductive Alg where
  | hs256
  | hs384
  | hs512
  | algNone
  | rs256
  deriving Repr, DecidableEq

/-- The keyfunc type test in auth.go line 116: the declared method must
be of the HMAC family. -/
def Alg.isHMAC : Alg → Bool
  | .hs256 => true
  | .hs384 => true
  | .hs512 => true
  | _ => false

/-- The claim set written by GenerateJWT (user_id, email, exp, iat). -/
structure TokenClaims where
  userId : Nat
  email : String
  exp : Nat
  iat : Nat
  deriving Repr, DecidableEq

/-- Perfect-MAC model of a JWT signature: a signature value records the
algorithm, key and payload it was computed over, and verification is
equality with the recomputed triple. -/
structure Signature where
  alg : Alg
  key : String
  signed : TokenClaims
  deriving Repr, DecidableEq

/-- A serialized token: declared algorithm header, claims, signature. -/
structure Token where
  alg : Alg
  claims : TokenClaims
  sig : Signature
  deriving Repr, DecidableEq

/-- JWTClaims from internal/models/user.go: the decoded result of a
successful validation. -/
structure JWTClaims where
  userID : Nat
  email : String
  deriving Repr, DecidableEq

/-- AuthService.GenerateJWT (auth.go lines 100-111): claims carry the
user id and email, exp = now + 7 days, iat = now, signed HS256 with the
server secret. -/
def GenerateJWT (jwtSecret : String) (user : User) (now : Nat) : Token :=
  let claims : TokenClaims := { userId := user.id, email := user.email,
                                exp := now + 7 * 24 * 60 * 60, iat := now }
  { alg := .hs256, claims := claims,
    sig := { alg := .hs256, key := jwtSecret, signed := claims } }

/-- AuthService.ValidateJWT (auth.go lines 114-144): the keyfunc rejects
non-HMAC methods, jwt.Parse verifies the signature with the declared
method and the server secret and rejects expired claims, and the typed
claim extraction produces JWTClaims. All failures collapse to
ErrInvalidToken. -/
def ValidateJWT (jwtSecret : String) (tok : Token) (now : Nat) :
    Except ServiceError JWTClaims :=
  if !(tok.alg.isHMAC) then .error .invalidToken
  else if tok.sig ≠ ({ alg := tok.alg, key := jwtSecret, signed := tok.claims } : Signature) then
    .error .invalidToken
  else if !(decide (now < tok.claims.exp)) then .error .invalidToken
  else .ok { userID := tok.claims.userId, email := tok.claims.email }

/-- LoginRequest from internal/models/user.go. -/
structure LoginRequest where
  email : String
  password : String
  deriving Repr, DecidableEq

/-- RegisterRequest from internal/models/user.go. -/
structure RegisterRequest where
  email : String
  password : String
  firstName : String
  lastName : String
  deriving Repr, DecidableEq

/-- UpdateProfileRequest from internal/models/user.go. -/
structure UpdateProfileRequest where
  firstName : String
  lastName : String
  bio : String
  website : String
  location : String
  deriving Repr, DecidableEq

/-- AuthService.Register (auth.go lines 47-70): duplicate email fails
with ErrUserExists, otherwise a new active, unverified identity with the
hashed password is created. Role and admin flag take the model defaults
(gorm tags: role 'user', is_admin false). -/
def Register (db : Db) (req : RegisterRequest) (newId : Nat) :
    Except ServiceError (User × Db) :=
  match getByEmail db req.email with
  | some _ => .error .userExists
  | none =>
    let user : User := {
      id := newId, email := req.email,
      password := hashPassword req.password, firstName := req.firstName,
      lastName := req.lastName, isActive := true, isVerified := false,
      isAdmin := false, role := "user", googleID := "", githubID := "",
      avatarURL := "", bio := "", website := "", location := "",
      lastLoginAt := none }
    .ok (user, db ++ [user])

/-- AuthService.Login (auth.go lines 73-98): unknown email and password
mismatch both return ErrInvalidCredentials; on success the last-login
stamp is persisted and a token is issued. -/
def Login (db : Db) (jwtSecret : String) (req : LoginRequest) (now : Nat) :
    Except ServiceError (Token × User × Db) :=
  match getByEmail db req.email with
  | none => .error .invalidCredentials
  | some user =>
    if !(checkPassword user.password req.password) then .error .invalidCredentials
    else
      let user := { user with lastLoginAt := some now }
      let db := updateRow db user
      .ok (GenerateJWT jwtSecret user now, user, db)

/-- AuthService.UpdateProfile (auth.go lines 152-165). -/
def UpdateProfile (db : Db) (userID : Nat) (req : UpdateProfileRequest) :
    Except ServiceError (User × Db) :=
  match getByID db userID with
  | none => .error .userNotFound
  | some user =>
    let user := { user with
      firstName := req.firstName, lastName := req.lastName,
      bio := req.bio, website := req.website, location := req.location }
    .ok (user, updateRow db user)

/-- Google profile fetched by getGoogleUserInfo. -/
structure GoogleUser where
  id : String
  email : String
  name : String
  picture : String
  given : String
  family : String
  deriving Repr, DecidableEq

/-- GitHub profile fetched by getGitHubUserInfo (email already
backfilled from the email-list endpoint when the profile omits it). -/
structure GitHubUser where
  id : Nat
  login : String
  email : String
  name : String
  avatarURL : String
  bio : String
  location : String
  blog : String
  deriving Repr, DecidableEq

/-- OAuthService.findOrCreateGoogleUser: provider-ID match wins and
returns the row unchanged; an email match links the Google ID and
backfills the avatar only when empty; otherwise a new active, verified
identity is created. -/
def findOrCreateGoogleUser (db : Db) (g : GoogleUser) (newId : Nat) :
    User × Db :=
  match db.find? (fun u => u.googleID == g.id) with
  | some user => (user, db)
  | none =>
    match getByEmail db g.email with
    | some user =>
      let user := { user with
        googleID := g.id,
        avatarURL := if user.avatarURL == "" then g.picture else user.avatarURL }
      (user, updateRow db user)
    | none =>
      let user : User := {
        id := newId, email := g.email, password := "",
        firstName := g.given, lastName := g.family, isActive := true,
        isVerified := true, isAdmin := false, role := "user",
        googleID := g.id, githubID := "", avatarURL := g.picture,
        bio := "", website := "", location := "", lastLoginAt := none }
      (user, db ++ [user])

/-- OAuthService.findOrCreateGitHubUser: same resolution order as the
Google resolver; the display name falls back to the login handle, and
the identity is verified only when an email was obtainable. -/
def findOrCreateGitHubUser (db : Db) (g : GitHubUser) (newId : Nat) :
    User × Db :=
  let idStr := toString g.id
  match db.find? (fun u => u.githubID == idStr) with
  | some user => (user, db)
  | none =>
    match (if g.email != "" then getByEmail db g.email else none) with
    | some user =>
      let user := { user with
        githubID := idStr,
        avatarURL := if user.avatarURL == "" then g.avatarURL else user.avatarURL }
      (user, updateRow db user)
    | none =>
      let firstName := if g.name != "" then g.name else g.login
      let user : User := {
        id := newId, email := g.email, password := "",
        firstName := firstName, lastName := "", isActive := true,
        isVerified := g.email != "", isAdmin := false, role := "user",
        googleID := "", githubID := idStr, avatarURL := g.avatarURL,
        bio := g.bio, website := g.blog, location := g.location,
        lastLoginAt := none }
      (user, db ++ [user])

/-- Outcome of an OAuth callback handler run, matching the return points
of AuthHandler.GoogleCallback / GitHubCallback. -/
inductive CallbackOutcome where
  | invalidState
  | missingCode
  | exchangeFailed
  | success
  deriving Repr, DecidableEq

/-- Observable post-state of one callback handler run: the HTTP outcome,
the oauth_state cookie after the run, the identity store after the run,
and the jwt cookie when one was set. -/
structure CallbackResult where
  outcome : CallbackOutcome
  oauthStateCookie : Option String
  db : Db
  jwtCookie : Option Token
  deriving Repr, DecidableEq

/-- The state test in the callback handlers (auth.go handler lines
220-225 and 262-267): c.Cookie errors when the cookie is absent, and
otherwise the query state must equal the saved state exactly. -/
def stateMismatch (savedState : Option String) (queryState : String) : Bool :=
  match savedState with
  | none => true
  | some s => queryState != s

/-- AuthHandler.GoogleCallback (handlers/auth.go lines 218-248). The
provider exchange plus profile fetch of HandleGoogleCallback is an
external interaction, supplied as an input: none means the exchange or
fetch failed. On a state mismatch the handler returns before the line
that clears the oauth_state cookie; the cookie is cleared only after the
state test passes. -/
def GoogleCallback (db : Db) (savedState : Option String)
    (queryState code : String) (profile : Option GoogleUser) (newId : Nat)
    (jwtSecret : String) (now : Nat) : CallbackResult :=
  if stateMismatch savedState queryState then
    { outcome := .invalidState, oauthStateCookie := savedState,
      db := db, jwtCookie := none }
  else if code == "" then
    { outcome := .missingCode, oauthStateCookie := none,
      db := db, jwtCookie := none }
  else
    match profile with
    | none =>
      { outcome := .exchangeFailed, oauthStateCookie := none,
        db := db, jwtCookie := none }
    | some g =>
      let p := findOrCreateGoogleUser db g newId
      { outcome := .success, oauthStateCookie := none, db := p.2,
        jwtCookie := some (GenerateJWT jwtSecret p.1 now) }

/-- AuthHandler.GitHubCallback (handlers/auth.go lines 260-290), same
shape as the Google callback. -/
def GitHubCallback (db : Db) (savedState : Option String)
    (queryState code : String) (profile : Option GitHubUser) (newId : Nat)
    (jwtSecret : String) (now : Nat) : CallbackResult :=
  if stateMismatch savedState queryState then
    { outcome := .invalidState, oauthStateCookie := savedState,
      db := db, jwtCookie := none }
  else if code == "" then
    { outcome := .missingCode, oauthStateCookie := none,
      db := db, jwtCookie := none }
  else
    match profile with
    | none =>
      { outcome := .exchangeFailed, oauthStateCookie := none,
        db := db, jwtCookie := none }
    | some g =>
      let p := findOrCreateGitHubUser db g newId
      { outcome := .success, oauthStateCookie := none, db := p.2,
        jwtCookie := some (GenerateJWT jwtSecret p.1 now) }

/-- Concrete identity used in witnesses and counterexamples: all profile
fields empty, email the printed id. -/
def mkUser (id : Nat) (adminFlag : Bool) (role : String) (active : Bool) :
    User :=
  { id := id, email := toString id, password := "", firstName := "",
    lastName := "", isActive := active, isVerified := false,
    isAdmin := adminFlag, role := role, googleID := "", githubID := "",
    avatarURL := "", bio := "", website := "", location := "",
    lastLoginAt := none }

/-- The data-model consistency predicate of spec section 3: the
secondary admin flag never contradicts the role. -/
def roleConsistent (u : User) : Bool :=
  !u.isAdmin || u.role == "admin"

/-- Store-wide version of roleConsistent. -/
def dbConsistent (db : Db) : Bool :=
  db.all roleConsistent

/-- A boolean-only admin: flagged isAdmin but role "user". -/
def flagOnlyAdmin : User := mkUser 1 true "user" true

/-- A deactivated identity flagged isAdmin. -/
def flaggedInactive : User := mkUser 2 true "user" false

/-- An identity privileged only through role "admin" (flag unset). -/
def roleOnlyAdmin : User := mkUser 3 false "admin" true

/-- A super-admin with both signals set. -/
def superAdmin : User := mkUser 4 true "admin" true

/-- An unprivileged identity. -/
def plainUser : User := mkUser 5 false "user" true

/-- Identity with a known password digest, for login runs. -/
def loginUser : User := { mkUser 9 false "user" true with password := hashPassword "right" }

/-- Store used by the concrete admin-policy runs. -/
def demoDb : Db := [flagOnlyAdmin, flaggedInactive, roleOnlyAdmin, superAdmin, plainUser]

/-- The admin update request that asks for admin status with no role
change. -/
def reqAdminFlag : AdminUpdateUserRequest :=
  { firstName := "F", lastName := "L", email := "new@x", isActive := none,
    isVerified := none, isAdmin := some true, role := "", bio := "",
    website := "", location := "" }

/-- Claims of a token that expires at Unix second 1000. -/
def shortClaims : TokenClaims := { userId := 7, email := "u@x", exp := 1000, iat := 0 }

/-- An HS384 token over shortClaims, correctly MACed with the server
secret under HS384. -/
def hs384Tok : Token :=
  { alg := .hs384, claims := shortClaims,
    sig := { alg := .hs384, key := "secret", signed := shortClaims } }

/-- An RS256 token over shortClaims. -/
def rs256Tok : Token :=
  { alg := .rs256, claims := shortClaims,
    sig := { alg := .rs256, key := "secret", signed := shortClaims } }

/-- An expired HS256 token, correctly MACed with the server secret. -/
def expiredTok : Token :=
  { alg := .hs256, claims := shortClaims,
    sig := { alg := .hs256, key := "secret", signed := shortClaims } }

/-- A store satisfying the role-flag consistency predicate. -/
def cleanDb : Db := [superAdmin, plainUser]

/-- A Google profile used in federation runs. -/
def g0 : GoogleUser :=
  { id := "gid", email := "g@x", name := "G", picture := "pic",
    given := "Gi", family := "Fa" }

/-- The identity produced by the C3 counterexample run: the super-admin
applies reqAdminFlag to the plain user, setting the boolean flag while
the role stays "user". -/
def c3broken : User :=
  { plainUser with
    firstName := "F", lastName := "L", email := "new@x", isAdmin := true }

/-- C1: an acting identity privileged only via the boolean flag (isAdmin
true, role not "admin") is denied PromoteToAdmin on any target with
NotAuthorized, while GetAllUsers with the same acting identity succeeds
with the requested page. -/
theorem flag_only_admin_promote_denied_list_allowed
    (db : Db) (adminUser : User) (targetID limit offset : Nat)
    (hflag : adminUser.isAdmin = true) (hrole : adminUser.role ≠ "admin") :
    PromoteToAdmin db adminUser targetID = .error .notAuthorized ∧
    GetAllUsers db adminUser limit offset = .ok ((db.drop offset).take limit) := by
  constructor
  · simp [PromoteToAdmin, hrole]
  · simp [GetAllUsers, IsAdmin, hflag]

/-- Witness for C1 at a concrete boolean-only admin and store. -/
theorem flag_only_admin_promote_denied_list_allowed_witness :
    PromoteToAdmin demoDb flagOnlyAdmin 5 = .error .notAuthorized ∧
    GetAllUsers demoDb flagOnlyAdmin 10 0 = .ok ((demoDb.drop 0).take 10) :=
  flag_only_admin_promote_denied_list_allowed demoDb flagOnlyAdmin 5 10 0
    (by decide) (by decide)

/-- C6: every issued token carries exp = iat + 7 days, and validation
rejects with InvalidToken any token whose expiry has passed, whatever
its declared algorithm or signature. -/
theorem exp_is_iat_plus_seven_days_and_expired_rejected
    (jwtSecret : String) (user : User) (now : Nat) (tok : Token) (vnow : Nat)
    (hexp : tok.claims.exp < vnow) :
    (GenerateJWT jwtSecret user now).claims.exp
      = (GenerateJWT jwtSecret user now).claims.iat + 7 * 24 * 60 * 60 ∧
    ValidateJWT jwtSecret tok vnow = .error .invalidToken := by
  refine ⟨rfl, ?_⟩
  have h : ¬ (vnow < tok.claims.exp) := Nat.not_lt.mpr (Nat.le_of_lt hexp)
  simp [ValidateJWT, h]

/-- Witness for C6: a correctly signed HS256 token one second past its
expiry is rejected. -/
theorem exp_is_iat_plus_seven_days_and_expired_rejected_witness :
    (GenerateJWT "secret" plainUser 0).claims.exp
      = (GenerateJWT "secret" plainUser 0).claims.iat + 7 * 24 * 60 * 60 ∧
    ValidateJWT "secret" expiredTok 1001 = .error .invalidToken :=
  exp_is_iat_plus_seven_days_and_expired_rejected "secret" plainUser 0
    expiredTok 1001 (by decide)

/-- C7: validating a freshly issued token with the same secret, before
its expiry, succeeds and returns the subject id and email of the issuing
identity. -/
theorem validate_after_issue_round_trip
    (jwtSecret : String) (user : User) (now vnow : Nat)
    (hactive : user.isActive = true) (hfresh : vnow < now + 7 * 24 * 60 * 60) :
    ValidateJWT jwtSecret (GenerateJWT jwtSecret user now) vnow
      = .ok { userID := user.id, email := user.email } := by
  simp [ValidateJWT, GenerateJWT, Alg.isHMAC, hfresh]

/-- Witness for C7 at a concrete active identity. -/
theorem validate_after_issue_round_trip_witness :
    ValidateJWT "secret" (GenerateJWT "secret" plainUser 100) 200
      = .ok { userID := 5, email := "5" } :=
  validate_after_issue_round_trip "secret" plainUser 100 200 (by decide) (by decide)

/-- C9: a login with an unknown email and a login with a known email but
wrong password produce the identical InvalidCredentials error value. -/
theorem login_failure_causes_indistinguishable
    (db : Db) (jwtSecret : String) (req1 req2 : LoginRequest)
    (now1 now2 : Nat) (u : User)
    (h1 : getByEmail db req1.email = none)
    (h2 : getByEmail db req2.email = some u)
    (h3 : checkPassword u.password req2.password = false) :
    Login db jwtSecret req1 now1 = .error .invalidCredentials ∧
    Login db jwtSecret req2 now2 = .error .invalidCredentials ∧
    Login db jwtSecret req1 now1 = Login db jwtSecret req2 now2 := by
  refine ⟨?_, ?_, ?_⟩ <;> simp [Login, h1, h2, h3]

/-- Witness for C9: unknown email versus wrong password against the same
store. -/
theorem login_failure_causes_indistinguishable_witness :
    Login [loginUser] "s" { email := "nope", password := "x" } 0
      = .error .invalidCredentials ∧
    Login [loginUser] "s" { email := "9", password := "wrong" } 0
      = .error .invalidCredentials ∧
    Login [loginUser] "s" { email := "nope", password := "x" } 0
      = Login [loginUser] "s" { email := "9", password := "wrong" } 0 :=
  login_failure_causes_indistinguishable [loginUser] "s"
    { email := "nope", password := "x" } { email := "9", password := "wrong" }
    0 0 loginUser (by decide) (by decide) (by decide)

/-- C8 counterexample: an HS384 token, computed with the server secret
but not with the HS256 algorithm used at issuance, is accepted by
validate rather than rejected with InvalidToken. -/
theorem hmac_family_token_accepted_counterexample :
    hs384Tok.alg ≠ (GenerateJWT "secret" plainUser 0).alg ∧
    ValidateJWT "secret" hs384Tok 5 = .ok { userID := 7, email := "u@x" } := by
  exact ⟨by decide, by decide⟩

/-- C8 amended: every token whose declared algorithm is outside the HMAC
family is rejected with InvalidToken before any claim is trusted. -/
theorem non_hmac_algorithm_rejected
    (jwtSecret : String) (tok : Token) (now : Nat)
    (h : tok.alg.isHMAC = false) :
    ValidateJWT jwtSecret tok now = .error .invalidToken := by
  simp [ValidateJWT, h]

/-- Witness for the amended C8: an RS256 token is rejected even though
its MAC triple matches the server secret. -/
theorem non_hmac_algorithm_rejected_witness :
    ValidateJWT "secret" rs256Tok 5 = .error .invalidToken :=
  non_hmac_algorithm_rejected "secret" rs256Tok 5 (by decide)

/-- C2 counterexample: with a boolean-only privileged actor, ActivateUser
succeeds on a target flagged isAdmin (the source has no admin-target
guard there), and DeactivateUser succeeds on a target privileged only
via role "admin" (the guard tests the boolean flag, not the role), so
neither returns NotAuthorized as the claim requires. -/
theorem privileged_target_mutation_counterexample :
    ActivateUser demoDb flagOnlyAdmin 2 ≠ .error .notAuthorized ∧
    DeactivateUser demoDb flagOnlyAdmin 3 ≠ .error .notAuthorized := by
  exact ⟨by decide, by decide⟩

/-- C2 amended: for an acting identity that is privileged but not
super-admin and a target whose boolean isAdmin flag is set, UpdateUser,
DeactivateUser and DeleteUser return NotAuthorized before any write. -/
theorem merely_privileged_cannot_mutate_flagged_admin
    (db : Db) (adminUser target : User) (targetID : Nat)
    (req : AdminUpdateUserRequest)
    (hpriv : IsAdmin adminUser = true) (hrole : adminUser.role ≠ "admin")
    (hfind : getByID db targetID = some target)
    (htgt : target.isAdmin = true) :
    UpdateUser db adminUser targetID req = .error .notAuthorized ∧
    DeactivateUser db adminUser targetID = .error .notAuthorized ∧
    DeleteUser db adminUser targetID = .error .notAuthorized := by
  refine ⟨?_, ?_, ?_⟩ <;>
    simp [UpdateUser, DeactivateUser, DeleteUser, hpriv, hfind, htgt, hrole]

/-- Witness for the amended C2: the boolean-only admin is blocked from
all three mutating operations on the flagged inactive admin. -/
theorem merely_privileged_cannot_mutate_flagged_admin_witness :
    UpdateUser demoDb flagOnlyAdmin 2 reqAdminFlag = .error .notAuthorized ∧
    DeactivateUser demoDb flagOnlyAdmin 2 = .error .notAuthorized ∧
    DeleteUser demoDb flagOnlyAdmin 2 = .error .notAuthorized :=
  merely_privileged_cannot_mutate_flagged_admin demoDb flagOnlyAdmin
    flaggedInactive 2 reqAdminFlag (by decide) (by decide) (by decide) (by decide)

/-- C4 counterexample: an unprivileged identity deactivating itself gets
the generic NotAuthorized denial, not the self-protection error the
claim promises regardless of privilege level. -/
theorem self_deactivation_unprivileged_counterexample :
    DeactivateUser [plainUser] plainUser 5 = .error .notAuthorized ∧
    DeactivateUser [plainUser] plainUser 5 ≠ .error .cannotDeactivateSelf := by
  exact ⟨by decide, by decide⟩

/-- C4 amended: a self-targeted DeactivateUser, DeleteUser or
DemoteFromAdmin always fails — so no write is applied — and the error is
the specific self-protection error exactly when the acting identity
passes the operation's privilege gates (baseline privilege plus the
flagged-admin-target guard for deactivate and delete; the super-admin
gate for demote); otherwise it is NotAuthorized. -/
theorem self_target_never_written
    (db : Db) (a target : User) (uid : Nat)
    (hfind : getByID db uid = some target) (hself : target.id = a.id) :
    ((∃ e, DeactivateUser db a uid = .error e) ∧
     (∃ e, DeleteUser db a uid = .error e) ∧
     (∃ e, DemoteFromAdmin db a uid = .error e)) ∧
    (IsAdmin a = true → (target.isAdmin = false ∨ a.role = "admin") →
      DeactivateUser db a uid = .error .cannotDeactivateSelf ∧
      DeleteUser db a uid = .error .cannotDeleteSelf) ∧
    (a.role = "admin" →
      DemoteFromAdmin db a uid = .error .cannotDemoteSelf) := by
  have hbeq : (target.id == a.id) = true := by simp [hself]
  refine ⟨⟨?_, ?_, ?_⟩, ?_, ?_⟩
  · cases hA : IsAdmin a with
    | false => exact ⟨.notAuthorized, by simp [DeactivateUser, hA]⟩
    | true =>
      cases hG : (target.isAdmin && (a.role != "admin")) with
      | true => exact ⟨.notAuthorized, by simp [DeactivateUser, hA, hfind, hG]⟩
      | false =>
        exact ⟨.cannotDeactivateSelf, by simp [DeactivateUser, hA, hfind, hG, hbeq]⟩
  · cases hA : IsAdmin a with
    | false => exact ⟨.notAuthorized, by simp [DeleteUser, hA]⟩
    | true =>
      cases hG : (target.isAdmin && (a.role != "admin")) with
      | true => exact ⟨.notAuthorized, by simp [DeleteUser, hA, hfind, hG]⟩
      | false =>
        exact ⟨.cannotDeleteSelf, by simp [DeleteUser, hA, hfind, hG, hbeq]⟩
  · cases hA : (!(IsAdmin a) || (a.role != "admin")) with
    | true => exact ⟨.notAuthorized, by simp [DemoteFromAdmin, hA]⟩
    | false =>
      exact ⟨.cannotDemoteSelf, by simp [DemoteFromAdmin, hA, hfind, hbeq]⟩
  · intro hA hG
    have hG2 : (target.isAdmin && (a.role != "admin")) = false := by
      cases hG with
      | inl h => simp [h]
      | inr h => simp [h]
    exact ⟨by simp [DeactivateUser, hA, hfind, hG2, hbeq],
           by simp [DeleteUser, hA, hfind, hG2, hbeq]⟩
  · intro hR
    have hA : (!(IsAdmin a) || (a.role != "admin")) = false := by
      simp [IsAdmin, hR]
    simp [DemoteFromAdmin, hA, hfind, hbeq]

/-- Witness for the amended C4: the super-admin targeting itself is
stopped by every self-protection rule, with no write. -/
theorem self_target_never_written_witness :
    DeactivateUser demoDb superAdmin 4 = .error .cannotDeactivateSelf ∧
    DeleteUser demoDb superAdmin 4 = .error .cannotDeleteSelf ∧
    DemoteFromAdmin demoDb superAdmin 4 = .error .cannotDemoteSelf :=
  ⟨((self_target_never_written demoDb superAdmin superAdmin 4 (by decide)
      (by decide)).2.1 (by decide) (Or.inr (by decide))).1,
   ((self_target_never_written demoDb superAdmin superAdmin 4 (by decide)
      (by decide)).2.1 (by decide) (Or.inr (by decide))).2,
   (self_target_never_written demoDb superAdmin superAdmin 4 (by decide)
      (by decide)).2.2 (by decide)⟩

/-- C5 counterexample: after a failed state validation the oauth_state
value is not cleared — the handler returns before the clearing line — so
the issued state is not single-use across a failed validation as the
claim asserts. -/
theorem state_kept_on_mismatch_counterexample :
    (GoogleCallback [] (some "aaaa") "bbbb" "c" none 9 "s" 0).outcome
      = .invalidState ∧
    (GoogleCallback [] (some "aaaa") "bbbb" "c" none 9 "s" 0).oauthStateCookie
      = some "aaaa" := by
  exact ⟨rfl, rfl⟩

/-- C5 amended: on either provider callback, a state value differing
from the issued one fails with InvalidState, mutates no identity, and
leaves the issued state in place; the state is cleared exactly when
validation succeeds, whether or not the rest of the flow succeeds. -/
theorem oauth_state_exact_match_cleared_on_success
    (db : Db) (saved : Option String) (qs code : String)
    (gp : Option GoogleUser) (hp : Option GitHubUser) (newId : Nat)
    (jwtSecret : String) (now : Nat) :
    (stateMismatch saved qs = true →
      GoogleCallback db saved qs code gp newId jwtSecret now =
        { outcome := .invalidState, oauthStateCookie := saved,
          db := db, jwtCookie := none } ∧
      GitHubCallback db saved qs code hp newId jwtSecret now =
        { outcome := .invalidState, oauthStateCookie := saved,
          db := db, jwtCookie := none }) ∧
    (stateMismatch saved qs = false →
      (GoogleCallback db saved qs code gp newId jwtSecret now).oauthStateCookie
        = none ∧
      (GitHubCallback db saved qs code hp newId jwtSecret now).oauthStateCookie
        = none) := by
  constructor
  · intro h
    exact ⟨by simp [GoogleCallback, h], by simp [GitHubCallback, h]⟩
  · intro h
    constructor
    · cases gp <;> cases hc : (code == "") <;> simp [GoogleCallback, h, hc]
    · cases hp <;> cases hc : (code == "") <;> simp [GitHubCallback, h, hc]

/-- Witness for the amended C5: a mismatching state at a concrete
callback is refused with the cookie retained, and a matching state at a
failed exchange still clears the cookie. -/
theorem oauth_state_exact_match_cleared_on_success_witness :
    (GoogleCallback [] (some "aaaa") "bbbb" "c" none 9 "s" 0 =
      { outcome := .invalidState, oauthStateCookie := some "aaaa",
        db := [], jwtCookie := none } ∧
     GitHubCallback [] (some "aaaa") "bbbb" "c" none 9 "s" 0 =
      { outcome := .invalidState, oauthStateCookie := some "aaaa",
        db := [], jwtCookie := none }) ∧
    (GoogleCallback [] (some "aaaa") "aaaa" "c" none 9 "s" 0).oauthStateCookie
      = none ∧
    (GitHubCallback [] (some "aaaa") "aaaa" "c" none 9 "s" 0).oauthStateCookie
      = none :=
  ⟨(oauth_state_exact_match_cleared_on_success [] (some "aaaa") "bbbb" "c"
      none none 9 "s" 0).1 (by decide),
   (oauth_state_exact_match_cleared_on_success [] (some "aaaa") "aaaa" "c"
      none none 9 "s" 0).2 (by decide)⟩

/-- C10: when UpdateUser is called by a privileged acting identity whose
role is not "admin", on a target without the boolean flag, with a
request that carries an isAdmin value and a valid non-admin (or empty)
role, the call succeeds: the requested admin-status change is silently
dropped (the target's flag stays as it was) with no NotAuthorized, while
every other requested field is applied and persisted. -/
theorem update_user_silently_drops_admin_change
    (db : Db) (adminUser target : User) (uid : Nat)
    (req : AdminUpdateUserRequest)
    (hpriv : IsAdmin adminUser = true) (hrole : adminUser.role ≠ "admin")
    (hfind : getByID db uid = some target) (htgt : target.isAdmin = false)
    (hreq : req.isAdmin.isSome = true)
    (hr : req.role = "" ∨ (validRole req.role = true ∧ req.role ≠ "admin")) :
    ∃ u db2, UpdateUser db adminUser uid req = .ok (u, db2) ∧
      u.isAdmin = target.isAdmin ∧
      u.firstName = req.firstName ∧ u.lastName = req.lastName ∧
      u.email = req.email ∧ u.bio = req.bio ∧ u.website = req.website ∧
      u.location = req.location ∧
      (∀ b, req.isActive = some b → u.isActive = b) ∧
      (req.isActive = none → u.isActive = target.isActive) ∧
      (∀ b, req.isVerified = some b → u.isVerified = b) ∧
      (req.isVerified = none → u.isVerified = target.isVerified) ∧
      (req.role ≠ "" → u.role = req.role) ∧
      (req.role = "" → u.role = target.role) ∧
      db2 = updateRow db u := by
  obtain ⟨bAd, hAd⟩ := Option.isSome_iff_exists.mp hreq
  have hRA : (adminUser.role == "admin") = false := by simp [hrole]
  have hG : (target.isAdmin && adminUser.role != "admin") = false := by
    simp [htgt]
  rcases hr with hre | ⟨hv, hne⟩
  · rcases hA : req.isActive with _ | bA <;>
      rcases hV : req.isVerified with _ | bV <;>
      simp [UpdateUser, hfind, hpriv, hAd, hRA, hG, hre, hA, hV] <;>
      exact ⟨_, _, ⟨rfl, rfl⟩, rfl, rfl, rfl, rfl, rfl, rfl, rfl, rfl, rfl, rfl, rfl⟩
  · have hne2 : req.role ≠ "" := by
      intro h
      rw [h] at hv
      simp [validRole] at hv
    have hRB : (req.role == "admin") = false := by simp [hne]
    rcases hA : req.isActive with _ | bA <;>
      rcases hV : req.isVerified with _ | bV <;>
      simp [UpdateUser, hfind, hpriv, hAd, hRA, hG, hv, hne2, hRB, hA, hV] <;>
      exact ⟨_, _, ⟨rfl, rfl⟩, rfl, rfl, rfl, rfl, rfl, rfl, rfl, rfl, rfl, rfl, rfl⟩

/-- Witness for C10: the boolean-only admin updates the plain user with
a request asking for admin status, and the call succeeds. -/
theorem update_user_silently_drops_admin_change_witness :
    (UpdateUser demoDb flagOnlyAdmin 5 reqAdminFlag).isOk = true := by
  obtain ⟨u, db2, hEq, hrest⟩ := update_user_silently_drops_admin_change
    demoDb flagOnlyAdmin plainUser 5 reqAdminFlag (by decide) (by decide)
    (by decide) (by decide) (by decide) (Or.inl (by decide))
  rw [hEq]
  rfl

/-- Every row of a consistent store is consistent. -/
theorem roleConsistent_of_mem (db : Db) (u : User)
    (h : dbConsistent db = true) (hm : u ∈ db) : roleConsistent u = true := by
  rw [dbConsistent, List.all_eq_true] at h
  exact h u hm

/-- updateRow preserves store consistency when the new row is
consistent. -/
theorem dbConsistent_updateRow (db : Db) (u : User)
    (h : dbConsistent db = true) (hu : roleConsistent u = true) :
    dbConsistent (updateRow db u) = true := by
  rw [dbConsistent, updateRow, List.all_map, List.all_eq_true]
  intro v hv
  by_cases hid : (v.id == u.id) = true
  · simp [Function.comp, hid, hu]
  · simp only [Function.comp, hid]
    simp only [Bool.not_eq_true] at hid
    simp [hid, roleConsistent_of_mem db v h hv]

/-- Appending a consistent row preserves store consistency. -/
theorem dbConsistent_append (db : Db) (u : User)
    (h : dbConsistent db = true) (hu : roleConsistent u = true) :
    dbConsistent (db ++ [u]) = true := by
  rw [dbConsistent, List.all_append]
  rw [dbConsistent] at h
  simp [h, hu]

/-- C3 amended: on a consistent store, Register, Login, UpdateProfile,
both federation resolvers, PromoteToAdmin, DemoteFromAdmin, ActivateUser
and DeactivateUser all yield consistent identities and a consistent
store; UpdateUser is excluded, since it can set the boolean flag and the
role independently. -/
theorem role_flag_invariant_preserved_except_admin_update (db : Db) (hdb : dbConsistent db = true) :
    (∀ req newId u db2, Register db req newId = .ok (u, db2) →
       roleConsistent u = true ∧ dbConsistent db2 = true) ∧
    (∀ s req now t u db2, Login db s req now = .ok (t, u, db2) →
       roleConsistent u = true ∧ dbConsistent db2 = true) ∧
    (∀ uid req u db2, UpdateProfile db uid req = .ok (u, db2) →
       roleConsistent u = true ∧ dbConsistent db2 = true) ∧
    (∀ g newId, roleConsistent (findOrCreateGoogleUser db g newId).1 = true ∧
       dbConsistent (findOrCreateGoogleUser db g newId).2 = true) ∧
    (∀ g newId, roleConsistent (findOrCreateGitHubUser db g newId).1 = true ∧
       dbConsistent (findOrCreateGitHubUser db g newId).2 = true) ∧
    (∀ a uid u db2, PromoteToAdmin db a uid = .ok (u, db2) →
       roleConsistent u = true ∧ dbConsistent db2 = true) ∧
    (∀ a uid u db2, DemoteFromAdmin db a uid = .ok (u, db2) →
       roleConsistent u = true ∧ dbConsistent db2 = true) ∧
    (∀ a uid u db2, ActivateUser db a uid = .ok (u, db2) →
       roleConsistent u = true ∧ dbConsistent db2 = true) ∧
    (∀ a uid u db2, DeactivateUser db a uid = .ok (u, db2) →
       roleConsistent u = true ∧ dbConsistent db2 = true) := by
  refine ⟨?_, ?_, ?_, ?_, ?_, ?_, ?_, ?_, ?_⟩
  · -- Register
    intro req newId u db2 h
    rcases hE : getByEmail db req.email with _ | w <;> rw [Register, hE] at h
    · simp only [Except.ok.injEq, Prod.mk.injEq] at h
      obtain ⟨h1, h2⟩ := h
      subst h1; subst h2
      exact ⟨rfl, dbConsistent_append db _ hdb rfl⟩
    · exact absurd h (by simp)
  · -- Login
    intro s req now t u db2 h
    rcases hE : getByEmail db req.email with _ | w <;> rw [Login, hE] at h
    · exact absurd h (by simp)
    · have hw : w ∈ db := List.mem_of_find?_eq_some hE
      have hwc := roleConsistent_of_mem db w hdb hw
      by_cases hp : (checkPassword w.password req.password) = true
      · simp only [hp, Bool.not_true, Bool.false_eq_true, if_false,
          Except.ok.injEq, Prod.mk.injEq] at h
        obtain ⟨h1, h2, h3⟩ := h
        subst h2; subst h3
        exact ⟨hwc, dbConsistent_updateRow db _ hdb hwc⟩
      · have hp2 : checkPassword w.password req.password = false := by
          cases hc : checkPassword w.password req.password
          · rfl
          · exact absurd hc hp
        simp [hp2] at h
  · -- UpdateProfile
    intro uid req u db2 h
    rcases hE : getByID db uid with _ | w <;> rw [UpdateProfile, hE] at h
    · exact absurd h (by simp)
    · have hw : w ∈ db := List.mem_of_find?_eq_some hE
      have hwc := roleConsistent_of_mem db w hdb hw
      simp only [Except.ok.injEq, Prod.mk.injEq] at h
      obtain ⟨h1, h2⟩ := h
      subst h1; subst h2
      exact ⟨hwc, dbConsistent_updateRow db _ hdb hwc⟩
  · -- Google resolver
    intro g newId
    rcases hF : db.find? (fun u => u.googleID == g.id) with _ | w
    · rcases hE : getByEmail db g.email with _ | w
      · simp only [findOrCreateGoogleUser, hF, hE]
        exact ⟨rfl, dbConsistent_append db _ hdb rfl⟩
      · have hw : w ∈ db := List.mem_of_find?_eq_some hE
        have hwc := roleConsistent_of_mem db w hdb hw
        simp only [findOrCreateGoogleUser, hF, hE]
        exact ⟨hwc, dbConsistent_updateRow db _ hdb hwc⟩
    · have hw : w ∈ db := List.mem_of_find?_eq_some hF
      simp only [findOrCreateGoogleUser, hF]
      exact ⟨roleConsistent_of_mem db w hdb hw, hdb⟩
  · -- GitHub resolver
    intro g newId
    rcases hF : db.find? (fun u => u.githubID == toString g.id) with _ | w
    · rcases hE : (if g.email != "" then getByEmail db g.email else none) with _ | w
      · simp only [findOrCreateGitHubUser, hF, hE]
        exact ⟨rfl, dbConsistent_append db _ hdb rfl⟩
      · have hw : w ∈ db := by
          by_cases hc : (g.email != "") = true
          · rw [if_pos hc] at hE
            exact List.mem_of_find?_eq_some hE
          · rw [if_neg hc] at hE
            cases hE
        have hwc := roleConsistent_of_mem db w hdb hw
        simp only [findOrCreateGitHubUser, hF, hE]
        exact ⟨hwc, dbConsistent_updateRow db _ hdb hwc⟩
    · have hw : w ∈ db := List.mem_of_find?_eq_some hF
      simp only [findOrCreateGitHubUser, hF]
      exact ⟨roleConsistent_of_mem db w hdb hw, hdb⟩
  · -- PromoteToAdmin
    intro a uid u db2 h
    by_cases hA : (!(IsAdmin a) || (a.role != "admin")) = true
    · rw [PromoteToAdmin, if_pos hA] at h
      exact absurd h (by simp)
    · rw [PromoteToAdmin, if_neg hA] at h
      rcases hE : getByID db uid with _ | w <;> rw [hE] at h
      · exact absurd h (by simp)
      · simp only [Except.ok.injEq, Prod.mk.injEq] at h
        obtain ⟨h1, h2⟩ := h
        subst h1; subst h2
        exact ⟨rfl, dbConsistent_updateRow db _ hdb rfl⟩
  · -- DemoteFromAdmin
    intro a uid u db2 h
    by_cases hA : (!(IsAdmin a) || (a.role != "admin")) = true
    · rw [DemoteFromAdmin, if_pos hA] at h
      exact absurd h (by simp)
    · rw [DemoteFromAdmin, if_neg hA] at h
      rcases hE : getByID db uid with _ | w <;> rw [hE] at h
      · exact absurd h (by simp)
      · by_cases hs : (w.id == a.id) = true
        · simp [hs] at h
        · have hs2 : (w.id == a.id) = false := by
            cases hc : (w.id == a.id)
            · rfl
            · exact absurd hc hs
          simp only [hs2, Bool.false_eq_true, if_false,
            Except.ok.injEq, Prod.mk.injEq] at h
          obtain ⟨h1, h2⟩ := h
          subst h1; subst h2
          exact ⟨rfl, dbConsistent_updateRow db _ hdb rfl⟩
  · -- ActivateUser
    intro a uid u db2 h
    by_cases hA : (!(IsAdmin a)) = true
    · rw [ActivateUser, if_pos hA] at h
      exact absurd h (by simp)
    · rw [ActivateUser, if_neg hA] at h
      rcases hE : getByID db uid with _ | w <;> rw [hE] at h
      · exact absurd h (by simp)
      · have hw : w ∈ db := List.mem_of_find?_eq_some hE
        have hwc := roleConsistent_of_mem db w hdb hw
        simp only [Except.ok.injEq, Prod.mk.injEq] at h
        obtain ⟨h1, h2⟩ := h
        subst h1; subst h2
        exact ⟨hwc, dbConsistent_updateRow db _ hdb hwc⟩
  · -- DeactivateUser
    intro a uid u db2 h
    by_cases hA : (!(IsAdmin a)) = true
    · rw [DeactivateUser, if_pos hA] at h
      exact absurd h (by simp)
    · rw [DeactivateUser, if_neg hA] at h
      rcases hE : getByID db uid with _ | w <;> rw [hE] at h
      · exact absurd h (by simp)
      · by_cases hG : (w.isAdmin && (a.role != "admin")) = true
        · simp [hG] at h
        · have hG2 : (w.isAdmin && (a.role != "admin")) = false := by
            cases hc : (w.isAdmin && (a.role != "admin"))
            · rfl
            · exact absurd hc hG
          by_cases hs : (w.id == a.id) = true
          · simp [hG2, hs] at h
          · have hs2 : (w.id == a.id) = false := by
              cases hc : (w.id == a.id)
              · rfl
              · exact absurd hc hs
            have hw : w ∈ db := List.mem_of_find?_eq_some hE
            have hwc := roleConsistent_of_mem db w hdb hw
            simp only [hG2, hs2, Bool.false_eq_true, if_false,
              Except.ok.injEq, Prod.mk.injEq] at h
            obtain ⟨h1, h2⟩ := h
            subst h1; subst h2
            exact ⟨hwc, dbConsistent_updateRow db _ hdb hwc⟩

/-- C3 counterexample: UpdateUser does not preserve the invariant: the
super-admin applies a request carrying isAdmin = true and no role change
to a consistent plain user, and the resulting identity has the flag set
with role still "user". -/
theorem role_flag_invariant_broken_by_update_counterexample :
    roleConsistent plainUser = true ∧
    UpdateUser demoDb superAdmin 5 reqAdminFlag
      = .ok (c3broken, updateRow demoDb c3broken) ∧
    roleConsistent c3broken = false := by
  exact ⟨by decide, by decide, by decide⟩

/-- Witness for the amended C3: the Google resolver and ActivateUser
runs on a concrete consistent store keep every identity consistent. -/
theorem role_flag_invariant_preserved_except_admin_update_witness :
    (roleConsistent (findOrCreateGoogleUser cleanDb g0 10).1 = true ∧
     dbConsistent (findOrCreateGoogleUser cleanDb g0 10).2 = true) ∧
    (roleConsistent { plainUser with isActive := true } = true ∧
     dbConsistent (updateRow cleanDb { plainUser with isActive := true }) = true) :=
  ⟨(role_flag_invariant_preserved_except_admin_update cleanDb
      (by decide)).2.2.2.1 g0 10,
   (role_flag_invariant_preserved_except_admin_update cleanDb
      (by decide)).2.2.2.2.2.2.2.1 superAdmin 5
      { plainUser with isActive := true }
      (updateRow cleanDb { plainUser with isActive := true }) (by decide)⟩

end SSO
